import Mathlib

/-!
Shallow embedding of `railway_deploy/app.py`: a Flask service that serves a
tourism-flow regression model.  The pipeline is: align the client record to
the model's feature schema, obtain a base prediction from the (external)
model, apply multiplicative corrections from lookup tables
(`aplicar_correccion_avanzada`), and categorize the corrected scalar
(`categorizar_afluencia`).  Python floats are modelled as rationals; JSON
scalars as an inductive `Scalar` type; dictionaries as association lists.
-/

namespace Afluencia

/-- A JSON scalar as it arrives in a request body or lives in the
correction-pattern tables: an integer, a float (modelled exactly as a
rational) or a string. -/
inductive Scalar where
  | int (n : ℤ)
  | rat (q : ℚ)
  | str (s : String)
deriving Repr, DecidableEq

/-- Python truthiness of a scalar (`if es_vacaciones:`): zero and the empty
string are falsy. -/
def Scalar.truthy : Scalar → Bool
  | .int n => n ≠ 0
  | .rat q => q ≠ 0
  | .str s => s ≠ ""

/-- Python `str()` of a scalar, as used by `str(dia_semana)`.  Integers print
as decimal numerals; floats with integral value print with a trailing `.0`
(so a float weekday never collides with the integer-derived keys "0".."6"). -/
def Scalar.pyStr : Scalar → String
  | .int n => toString n
  | .rat q => if q.den = 1 then toString q.num ++ ".0" else toString q
  | .str s => s

/-- Python's `str.upper()` (ASCII case mapping, applied per character). -/
def pyUpper (s : String) : String := ⟨s.data.map Char.toUpper⟩

/-- Python `provincia.upper()`: succeeds only on strings; on any other
scalar it raises `AttributeError`. -/
def Scalar.upper : Scalar → Except String String
  | .str s => .ok (pyUpper s)
  | .int _ => .error "int object has no attribute upper"
  | .rat _ => .error "float object has no attribute upper"

/-- Using a table entry as a multiplicative factor (`factor_total *= f`):
numbers work, a string raises `TypeError`. -/
def Scalar.asFactor : Scalar → Except String ℚ
  | .int n => .ok (n : ℚ)
  | .rat q => .ok q
  | .str _ => .error "cannot multiply sequence by non-int of type float"

/-- One entry of `patrones['PATRONES_PROVINCIA']`: a JSON object whose
`factor_base` key may be absent (then `.get('factor_base', 1.0)` yields 1.0)
or hold an arbitrary scalar (possibly malformed, e.g. a string). -/
structure ProvEntry where
  factor_base : Option Scalar
deriving Repr, DecidableEq

/-- One entry of `patrones['PATRONES_DIA_SEMANA']`, with an optional
`factor` key. -/
structure DiaEntry where
  factor : Option Scalar
deriving Repr, DecidableEq

/-- The correction-pattern document `patrones_correccion.json`: a province
table keyed by uppercase province name and a weekday table keyed by the
string form of the weekday. -/
structure Patrones where
  patrones_provincia : List (String × ProvEntry)
  patrones_dia_semana : List (String × DiaEntry)
deriving Repr, DecidableEq

/-- The fixed in-code month table `factores_estacionales` together with the
`.get(mes, 1.0)` default for keys outside it. -/
def factores_estacionales (mes : ℤ) : ℚ :=
  if mes = 1 then 1.1
  else if mes = 2 then 1.05
  else if mes = 3 then 0.95
  else if mes = 4 then 0.9
  else if mes = 5 then 0.9
  else if mes = 6 then 1.2
  else if mes = 7 then 1.25
  else if mes = 8 then 1.3
  else if mes = 9 then 0.9
  else if mes = 10 then 0.95
  else if mes = 11 then 1.0
  else if mes = 12 then 1.15
  else 1.0

/-- `factores_estacionales.get(mes, 1.0)` for an arbitrary scalar `mes`:
Python dict lookup identifies a float of integral value with the equal int
key; strings never match the integer keys. -/
def seasonalOf : Scalar → ℚ
  | .int n => factores_estacionales n
  | .rat q => if q.den = 1 then factores_estacionales q.num else 1.0
  | .str _ => 1.0

/-- The `factores_aplicados` dictionary on the successful path of
`aplicar_correccion_avanzada`, initialised to all 1.0. -/
structure FactoresAplicados where
  provincia : ℚ
  dia_semana : ℚ
  vacaciones : ℚ
  estacional : ℚ
deriving Repr, DecidableEq

/-- The breakdown returned by the correction engine: either the four applied
factors, or (after an internal exception) the dictionary
`{'error': str(e)}`. -/
inductive Factores where
  | ok (f : FactoresAplicados)
  | error (msg : String)
deriving Repr, DecidableEq

/-- The dictionary returned by `aplicar_correccion_avanzada`. -/
structure CorrResult where
  prediccion_corregida : ℚ
  factores_aplicados : Factores
  factor_total : ℚ
deriving Repr, DecidableEq

/-- The province block (`Corrección por provincia`): if the uppercased
province is a key of the province table, its `factor_base` (default 1.0) is
recorded and multiplied into the total — a malformed (string) factor raises
at the `*=`; if absent, the factor stays 1.0 and is not an error. -/
def provinciaFactor (pat : Patrones) (provincia_upper : String) :
    Except String ℚ :=
  match pat.patrones_provincia.lookup provincia_upper with
  | some entry => (entry.factor_base.getD (.rat 1.0)).asFactor
  | none => Except.ok 1.0

/-- The weekday block (`Corrección por día de la semana`): look up
`str(dia_semana)` in the weekday table; absent keys give 1.0, a malformed
entry raises at the `*=`. -/
def diaFactor (pat : Patrones) (dia_semana : Scalar) : Except String ℚ :=
  match pat.patrones_dia_semana.lookup dia_semana.pyStr with
  | some entry => (entry.factor.getD (.rat 1.0)).asFactor
  | none => Except.ok 1.0

/-- The holiday block (`Corrección por vacaciones`): a truthy flag
multiplies in the constant 1.15, a falsy one leaves the factor at 1.0. -/
def vacacionesFactor (es_vacaciones : Scalar) : ℚ :=
  if es_vacaciones.truthy then 1.15 else 1.0

/-- The body of the `try:` block of `aplicar_correccion_avanzada`: resolve
the four factors in source order, accumulate `factor_total` (starting at
1.0) and fill the `factores_aplicados` dict; `.error` marks the points
where the Python code would raise (`patrones` not loaded,
`provincia.upper()` on a non-string, a malformed table factor used in
`*=`). -/
def innerCorrection (patrones : Option Patrones) (prediccion_base : ℚ)
    (provincia dia_semana es_vacaciones mes : Scalar) :
    Except String (ℚ × FactoresAplicados × ℚ) := do
  let pat ← match patrones with
    | some p => Except.ok p
    | none => Except.error "NoneType object is not subscriptable"
  -- Corrección por provincia (si existe en los patrones)
  let provincia_upper ← provincia.upper
  let factor_provincia ← provinciaFactor pat provincia_upper
  -- Corrección por día de la semana
  let factor_dia ← diaFactor pat dia_semana
  -- Corrección por vacaciones
  let factor_vacaciones := vacacionesFactor es_vacaciones
  -- Corrección estacional por mes
  let factor_estacional := seasonalOf mes
  let factor_total :=
    1.0 * factor_provincia * factor_dia * factor_vacaciones * factor_estacional
  let factores : FactoresAplicados :=
    { provincia := factor_provincia, dia_semana := factor_dia,
      vacaciones := factor_vacaciones, estacional := factor_estacional }
  -- Aplicar corrección
  let prediccion_corregida := prediccion_base * factor_total
  Except.ok (prediccion_corregida, factores, factor_total)

/-- `aplicar_correccion_avanzada`: run the `try:` body; on any exception
return the base prediction unchanged with `{'error': str(e)}` as breakdown
and `factor_total` 1.0. -/
def aplicar_correccion_avanzada (patrones : Option Patrones)
    (prediccion_base : ℚ) (provincia dia_semana es_vacaciones mes : Scalar) :
    CorrResult :=
  match innerCorrection patrones prediccion_base provincia dia_semana
      es_vacaciones mes with
  | .ok (c, f, t) =>
      { prediccion_corregida := c, factores_aplicados := .ok f, factor_total := t }
  | .error e =>
      { prediccion_corregida := prediccion_base, factores_aplicados := .error e,
        factor_total := 1.0 }

/-- The dictionary returned by `categorizar_afluencia`. -/
structure Categoria where
  categoria : String
  emoji : String
  recomendacion : String
deriving Repr, DecidableEq

/-- `categorizar_afluencia`: map the corrected scalar to one of four bands
with inclusive lower bounds. -/
def categorizar_afluencia (afluencia : ℚ) : Categoria :=
  if afluencia ≥ 35 then
    { categoria := "MUY ALTA", emoji := "🔥🔥🔥",
      recomendacion := "Excelente día para turismo - alta demanda" }
  else if afluencia ≥ 25 then
    { categoria := "ALTA", emoji := "🔥🔥",
      recomendacion := "Muy buen día para actividades turísticas" }
  else if afluencia ≥ 15 then
    { categoria := "MEDIA", emoji := "🔥",
      recomendacion := "Día moderado para turismo" }
  else
    { categoria := "BAJA", emoji := "❄️",
      recomendacion := "Día tranquilo, menos turismo" }

/-- Python's banker's rounding of a rational to an integer (`round(x)`):
nearest integer, ties to even. -/
def roundHalfEven (x : ℚ) : ℤ :=
  let f := ⌊x⌋
  if x - f < 1 / 2 then f
  else if x - f > 1 / 2 then f + 1
  else if f % 2 = 0 then f else f + 1

/-- `round(x, 2)` on the decimal reading of the value. -/
def pyRound2 (x : ℚ) : ℚ := (roundHalfEven (x * 100) : ℚ) / 100

/-- `round(x, 3)` on the decimal reading of the value. -/
def pyRound3 (x : ℚ) : ℚ := (roundHalfEven (x * 1000) : ℚ) / 1000

/-- A request body: a JSON object, i.e. a mapping from field name to scalar. -/
def InputRecord := List (String × Scalar)

/-- `data.get(key, default)`. -/
def dataGet (data : InputRecord) (key : String) (default : Scalar) : Scalar :=
  ((List.lookup key data).getD default)

/-- The feature-alignment step of both handlers (lines 188-196 / 262-269):
build a one-row frame from the record, add every schema feature missing from
it as the column 0, and select the schema's columns in schema order.  The
net effect is the row vector holding, for each schema feature in order, the
record's value if present and the integer 0 otherwise. -/
def alignFeatures (features : List String) (data : InputRecord) : List Scalar :=
  features.map (fun f => (List.lookup f data).getD (.int 0))

/-- The external trained model: `float(modelo.predict(df_input)[0])`.  It may
raise (e.g. on a schema mismatch or a non-numeric value passed through),
modelled as `Except`. -/
def Predictor := List Scalar → Except String ℚ

/-- The `features_modelo.json` document: a JSON object whose `features` key
holds the ordered feature-name list. -/
structure FeaturesInfo where
  features : List String

/-- The process-wide singletons loaded by `cargar_modelo`; `none` models a
load that has not happened or failed. -/
structure AppState where
  modelo : Option Predictor
  features_info : Option FeaturesInfo
  patrones : Option Patrones

/-- The successful (HTTP 200) response body of `POST /predict`: the
`prediccion`, `detalles` and `metadata` sections flattened into one record
(timestamps and fixed metadata strings omitted). -/
structure PredictOk where
  afluencia : ℚ
  prediccion_base : ℚ
  categoria : String
  emoji : String
  recomendacion : String
  provincia : String
  dia_semana : Scalar
  mes : Scalar
  es_vacaciones : Bool
  factores_aplicados : Factores
  factor_total : ℚ
deriving Repr, DecidableEq

/-- The three response shapes of `POST /predict`: 200 with the full result,
400 with `{'error': msg, 'status': 'error', 'timestamp': ...}`, or 500 with
`{'error': msg}`. -/
inductive PredictResponse where
  | ok (r : PredictOk)
  | clientError (msg : String)
  | serverError (msg : String)
deriving Repr, DecidableEq

/-- The part of the `predict` handler following the resource and body
checks: align the record, invoke the model, fetch the correction
parameters, apply the correction, categorize, and build the response
(`provincia.upper()` at the response-building step may raise on a
non-string `provincia`). -/
def predictCore (modelo : Predictor) (features_info : FeaturesInfo)
    (patrones : Option Patrones) (data : InputRecord) :
    Except String PredictOk := do
  let df_input := alignFeatures features_info.features data
  let prediccion_base ← modelo df_input
  let provincia := dataGet data "provincia" (.str "PICHINCHA")
  let dia_semana := dataGet data "dia_semana" (.int 1)
  let es_vacaciones := dataGet data "Es_Vacaciones" (.int 0)
  let mes := dataGet data "Mes" (.int 1)
  let resultado_correccion := aplicar_correccion_avanzada patrones
    prediccion_base provincia dia_semana es_vacaciones mes
  let afluencia_final := resultado_correccion.prediccion_corregida
  let categoria_info := categorizar_afluencia afluencia_final
  let provincia_upper ← provincia.upper
  Except.ok
    { afluencia := pyRound2 afluencia_final
      prediccion_base := pyRound2 prediccion_base
      categoria := categoria_info.categoria
      emoji := categoria_info.emoji
      recomendacion := categoria_info.recomendacion
      provincia := provincia_upper
      dia_semana := dia_semana
      mes := mes
      es_vacaciones := es_vacaciones.truthy
      factores_aplicados := resultado_correccion.factores_aplicados
      factor_total := pyRound3 resultado_correccion.factor_total }

/-- The `POST /predict` handler: 500 if the model or features are not
loaded, 400 on a missing or empty body (`request.json` yielding nothing or
an empty object), otherwise run the pipeline; any exception it raises is
caught and turned into a 400 with `'Error en predicción: ' + str(e)`. -/
def predict (st : AppState) (body : Option InputRecord) : PredictResponse :=
  match st.modelo, st.features_info with
  | some modelo, some features_info =>
      match body with
      | none => .clientError "No se enviaron datos"
      | some data =>
          if data.isEmpty then .clientError "No se enviaron datos"
          else
            match predictCore modelo features_info st.patrones data with
            | .ok r => .ok r
            | .error e => .clientError ("Error en predicción: " ++ e)
  | _, _ => .serverError "Modelo no cargado correctamente"

/-- The three response shapes of `POST /predict/simple`: 200 with
`{'afluencia': a, 'categoria': c, 'success': True}`, 400 with
`{'error': 'No data provided'}` (no `success` key), or 400 with
`{'error': msg, 'success': False}`. -/
inductive SimpleResponse where
  | ok (afluencia : ℚ) (categoria : String)
  | errNoData (msg : String)
  | err (msg : String)
deriving DecidableEq

/-- The `try:` body of the `predict_simple` handler.  There is no resource
check: a missing `features_info` or `modelo` raises when first used and the
exception is caught by the handler's generic `except`. -/
def simpleCore (st : AppState) (body : Option InputRecord) :
    Except String SimpleResponse := do
  match body with
  | none => Except.ok (.errNoData "No data provided")
  | some data =>
      if data.isEmpty then Except.ok (.errNoData "No data provided")
      else do
        let features_info ← match st.features_info with
          | some f => Except.ok f
          | none => Except.error "NoneType object is not subscriptable"
        let df_input := alignFeatures features_info.features data
        let modelo ← match st.modelo with
          | some m => Except.ok m
          | none => Except.error "NoneType object has no attribute predict"
        let prediccion ← modelo df_input
        let provincia := dataGet data "provincia" (.str "PICHINCHA")
        let dia_semana := dataGet data "dia_semana" (.int 1)
        let mes := dataGet data "Mes" (.int 1)
        let resultado := aplicar_correccion_avanzada st.patrones prediccion
          provincia dia_semana (.int 0) mes
        let afluencia := pyRound2 resultado.prediccion_corregida
        Except.ok (.ok afluencia (categorizar_afluencia afluencia).categoria)

/-- The `POST /predict/simple` handler: run the body; any exception becomes
a 400 with `{'error': str(e), 'success': False}`. -/
def predict_simple (st : AppState) (body : Option InputRecord) :
    SimpleResponse :=
  match simpleCore st body with
  | .ok r => r
  | .error e => .err e

/-! ### Characterization of the correction engine -/

theorem upper_str (s : String) : Scalar.upper (.str s) = .ok (pyUpper s) := rfl

/-- Closed form of the `try:` body when every step succeeds. -/
theorem innerCorrection_ok (pat : Patrones) (base : ℚ)
    (prov dia vac mes : Scalar) (provU : String) (fp fd : ℚ)
    (hu : Scalar.upper prov = .ok provU)
    (hf : provinciaFactor pat provU = .ok fp)
    (hd : diaFactor pat dia = .ok fd) :
    innerCorrection (some pat) base prov dia vac mes =
      .ok (base * (1.0 * fp * fd * vacacionesFactor vac * seasonalOf mes),
        ⟨fp, fd, vacacionesFactor vac, seasonalOf mes⟩,
        1.0 * fp * fd * vacacionesFactor vac * seasonalOf mes) := by
  simp [innerCorrection, hu, hf, hd, Bind.bind, Except.bind]

/-- If the error dictionary is absent from the result, every step of the
`try:` body succeeded, and the result fields have the advertised closed
form. -/
theorem aplicar_factores_ok (pats : Option Patrones) (base : ℚ)
    (prov dia vac mes : Scalar) (f : FactoresAplicados)
    (h : (aplicar_correccion_avanzada pats base prov dia vac mes).factores_aplicados
        = .ok f) :
    ∃ pat provU,
      pats = some pat ∧ Scalar.upper prov = .ok provU ∧
      provinciaFactor pat provU = .ok f.provincia ∧
      diaFactor pat dia = .ok f.dia_semana ∧
      f.vacaciones = vacacionesFactor vac ∧
      f.estacional = seasonalOf mes ∧
      (aplicar_correccion_avanzada pats base prov dia vac mes).factor_total =
        f.provincia * f.dia_semana * f.vacaciones * f.estacional ∧
      (aplicar_correccion_avanzada pats base prov dia vac mes).prediccion_corregida =
        base *
          (aplicar_correccion_avanzada pats base prov dia vac mes).factor_total := by
  obtain ⟨fprov, fdia, fvac, fest⟩ := f
  cases pats with
  | none =>
      simp [aplicar_correccion_avanzada, innerCorrection, Bind.bind,
        Except.bind] at h
  | some pat =>
      cases hu : Scalar.upper prov with
      | error e =>
          simp [aplicar_correccion_avanzada, innerCorrection, hu, Bind.bind,
            Except.bind] at h
      | ok provU =>
          cases hf : provinciaFactor pat provU with
          | error e =>
              simp [aplicar_correccion_avanzada, innerCorrection, hu, hf,
                Bind.bind, Except.bind] at h
          | ok fp =>
              cases hd : diaFactor pat dia with
              | error e =>
                  simp [aplicar_correccion_avanzada, innerCorrection, hu, hf,
                    hd, Bind.bind, Except.bind] at h
              | ok fd =>
                  rw [aplicar_correccion_avanzada,
                    innerCorrection_ok pat base prov dia vac mes provU fp fd
                      hu hf hd] at h ⊢
                  simp only [Factores.ok.injEq, FactoresAplicados.mk.injEq] at h
                  obtain ⟨h1, h2, h3, h4⟩ := h
                  subst h1; subst h2; subst h3; subst h4
                  refine ⟨pat, provU, rfl, rfl, hf, hd, rfl, rfl, ?_, ?_⟩
                  · simp only []
                    ring
                  · simp only []

/-- The `except:` branch of `aplicar_correccion_avanzada` in isolation: an
exception inside the `try:` body yields the identity correction carrying
the error string. -/
theorem aplicar_error (pats : Option Patrones) (base : ℚ)
    (prov dia vac mes : Scalar) (e : String)
    (h : innerCorrection pats base prov dia vac mes = .error e) :
    aplicar_correccion_avanzada pats base prov dia vac mes =
      { prediccion_corregida := base, factores_aplicados := .error e,
        factor_total := 1.0 } := by
  simp [aplicar_correccion_avanzada, h]

/-! ### Characterization of the `/predict` handler -/

/-- The successful response record of `predict` as a function of the base
prediction and the request parameters (`s` is the string value of the
`provincia` field). -/
def predictRespuesta (pats : Option Patrones) (data : InputRecord)
    (base : ℚ) (s : String) : PredictOk :=
  let resultado := aplicar_correccion_avanzada pats base (.str s)
    (dataGet data "dia_semana" (.int 1))
    (dataGet data "Es_Vacaciones" (.int 0))
    (dataGet data "Mes" (.int 1))
  let categoria_info := categorizar_afluencia resultado.prediccion_corregida
  { afluencia := pyRound2 resultado.prediccion_corregida
    prediccion_base := pyRound2 base
    categoria := categoria_info.categoria
    emoji := categoria_info.emoji
    recomendacion := categoria_info.recomendacion
    provincia := pyUpper s
    dia_semana := dataGet data "dia_semana" (.int 1)
    mes := dataGet data "Mes" (.int 1)
    es_vacaciones := (dataGet data "Es_Vacaciones" (.int 0)).truthy
    factores_aplicados := resultado.factores_aplicados
    factor_total := pyRound3 resultado.factor_total }

/-- When resources are loaded, the body is non-empty, the model call
succeeds and `provincia` is a string, `predict` returns 200 with the fully
determined response record. -/
theorem predict_ok_build (modelo : Predictor) (features_info : FeaturesInfo)
    (pats : Option Patrones) (data : InputRecord) (base : ℚ) (s : String)
    (hm : modelo (alignFeatures features_info.features data) = Except.ok base)
    (hd : data ≠ [])
    (hs : dataGet data "provincia" (.str "PICHINCHA") = .str s) :
    predict ⟨some modelo, some features_info, pats⟩ (some data) =
      .ok (predictRespuesta pats data base s) := by
  simp [predict, hd, predictCore, hm, hs, Bind.bind, Except.bind,
    Scalar.upper, predictRespuesta]

/-- Conversely a 200 response from `predict` forces a non-empty body, a
successful model call and a string `provincia`. -/
theorem predict_ok_inv (modelo : Predictor) (features_info : FeaturesInfo)
    (pats : Option Patrones) (data : InputRecord) (r : PredictOk)
    (h : predict ⟨some modelo, some features_info, pats⟩ (some data) = .ok r) :
    data ≠ [] ∧ ∃ base s,
      modelo (alignFeatures features_info.features data) = Except.ok base ∧
      dataGet data "provincia" (.str "PICHINCHA") = .str s := by
  by_cases hd : data = []
  · simp [predict, hd] at h
  · refine ⟨hd, ?_⟩
    cases hm : modelo (alignFeatures features_info.features data) with
    | error e =>
        simp [predict, hd, predictCore, hm, Bind.bind, Except.bind] at h
    | ok base =>
        cases hp : dataGet data "provincia" (.str "PICHINCHA") with
        | int n =>
            simp [predict, hd, predictCore, hm, hp, Bind.bind, Except.bind,
              Scalar.upper] at h
        | rat q =>
            simp [predict, hd, predictCore, hm, hp, Bind.bind, Except.bind,
              Scalar.upper] at h
        | str s => exact ⟨base, s, rfl, rfl⟩

/-! ### Claim theorems -/

/-- C2: for every base prediction and every (province, weekday, holiday,
month) input on which the correction engine takes its normal (non-error)
path, the returned corrected value equals base * factor_total, and
factor_total equals the product of the four component factors in the
returned breakdown. -/
theorem correccion_producto :
    ∀ (pats : Option Patrones) (base : ℚ) (prov dia vac mes : Scalar)
      (f : FactoresAplicados),
      (aplicar_correccion_avanzada pats base prov dia vac mes).factores_aplicados
          = .ok f →
      (aplicar_correccion_avanzada pats base prov dia vac mes).prediccion_corregida
          = base *
            (aplicar_correccion_avanzada pats base prov dia vac mes).factor_total ∧
      (aplicar_correccion_avanzada pats base prov dia vac mes).factor_total
          = f.provincia * f.dia_semana * f.vacaciones * f.estacional := by
  intro pats base prov dia vac mes f h
  obtain ⟨pat, provU, -, -, -, -, -, -, ht, hc⟩ :=
    aplicar_factores_ok pats base prov dia vac mes f h
  exact ⟨hc, ht⟩

/-- Witness for C2 at a concrete input taking the normal path (truthy
holiday flag, June). -/
theorem correccion_producto_witness :
    (aplicar_correccion_avanzada (some ⟨[], []⟩)
        10 (.str "x") (.int 9) (.int 1) (.int 6)).prediccion_corregida
      = 10 * (aplicar_correccion_avanzada (some ⟨[], []⟩)
        10 (.str "x") (.int 9) (.int 1) (.int 6)).factor_total ∧
    (aplicar_correccion_avanzada (some ⟨[], []⟩)
        10 (.str "x") (.int 9) (.int 1) (.int 6)).factor_total
      = (1.0 : ℚ) * 1.0 * 1.15 * 1.2 :=
  correccion_producto (some ⟨[], []⟩) 10 (.str "x") (.int 9) (.int 1) (.int 6)
    ⟨1.0, 1.0, 1.15, 1.2⟩ (by
      rw [aplicar_correccion_avanzada,
        innerCorrection_ok ⟨[], []⟩ 10 (.str "x") (.int 9) (.int 1) (.int 6)
          (pyUpper "x") 1.0 1.0 rfl rfl rfl]
      norm_num [vacacionesFactor, Scalar.truthy, seasonalOf,
        factores_estacionales])

/-- The order of the four category bands, lowest to highest. -/
def bandRank (c : String) : ℕ :=
  if c = "BAJA" then 0
  else if c = "MEDIA" then 1
  else if c = "ALTA" then 2
  else 3

/-- C3: the categorizer is a total deterministic function returning one of
exactly four bands with lower-bound-inclusive thresholds (≥35 MUY ALTA,
25–35 ALTA, 15–25 MEDIA, <15 BAJA); it is monotonic, and at the boundaries
35 ↦ MUY ALTA, 25 ↦ ALTA, 15 ↦ MEDIA. -/
theorem categorizar_afluencia_spec :
    (∀ x : ℚ, 35 ≤ x → (categorizar_afluencia x).categoria = "MUY ALTA") ∧
    (∀ x : ℚ, 25 ≤ x → x < 35 → (categorizar_afluencia x).categoria = "ALTA") ∧
    (∀ x : ℚ, 15 ≤ x → x < 25 → (categorizar_afluencia x).categoria = "MEDIA") ∧
    (∀ x : ℚ, x < 15 → (categorizar_afluencia x).categoria = "BAJA") ∧
    (∀ x : ℚ, (categorizar_afluencia x).categoria = "BAJA" ∨
      (categorizar_afluencia x).categoria = "MEDIA" ∨
      (categorizar_afluencia x).categoria = "ALTA" ∨
      (categorizar_afluencia x).categoria = "MUY ALTA") ∧
    (∀ x y : ℚ, x ≤ y →
      bandRank (categorizar_afluencia x).categoria ≤
        bandRank (categorizar_afluencia y).categoria) ∧
    (categorizar_afluencia 35).categoria = "MUY ALTA" ∧
    (categorizar_afluencia 25).categoria = "ALTA" ∧
    (categorizar_afluencia 15).categoria = "MEDIA" := by
  refine ⟨?_, ?_, ?_, ?_, ?_, ?_, ?_, ?_, ?_⟩
  · intro x hx
    simp only [categorizar_afluencia]
    split_ifs with h1 <;> first | rfl | linarith
  · intro x h1 h2
    simp only [categorizar_afluencia]
    split_ifs <;> first | rfl | linarith
  · intro x h1 h2
    simp only [categorizar_afluencia]
    split_ifs <;> first | rfl | linarith
  · intro x hx
    simp only [categorizar_afluencia]
    split_ifs <;> first | rfl | linarith
  · intro x
    simp only [categorizar_afluencia]
    split_ifs <;> simp
  · intro x y hxy
    simp only [categorizar_afluencia]
    split_ifs <;> first | decide | (exfalso; linarith)
  · norm_num [categorizar_afluencia]
  · norm_num [categorizar_afluencia]
  · norm_num [categorizar_afluencia]

/-- Witness for C3 at concrete inputs in each band and across a pair. -/
theorem categorizar_afluencia_spec_witness :
    (categorizar_afluencia 40).categoria = "MUY ALTA" ∧
    (categorizar_afluencia 30).categoria = "ALTA" ∧
    (categorizar_afluencia 20).categoria = "MEDIA" ∧
    (categorizar_afluencia 10).categoria = "BAJA" ∧
    bandRank (categorizar_afluencia 10).categoria ≤
      bandRank (categorizar_afluencia 40).categoria :=
  ⟨categorizar_afluencia_spec.1 40 (by norm_num),
   categorizar_afluencia_spec.2.1 30 (by norm_num) (by norm_num),
   categorizar_afluencia_spec.2.2.1 20 (by norm_num) (by norm_num),
   categorizar_afluencia_spec.2.2.2.1 10 (by norm_num),
   categorizar_afluencia_spec.2.2.2.2.2.1 10 40 (by norm_num)⟩

set_option maxHeartbeats 1000000 in
/-- C6: for every month m in 1..12 the seasonal factor applied by the
correction engine equals the fixed table value, and for every m outside
1..12 it equals 1.0. -/
theorem factor_estacional_spec :
    (factores_estacionales 1 = 1.1 ∧ factores_estacionales 2 = 1.05 ∧
     factores_estacionales 3 = 0.95 ∧ factores_estacionales 4 = 0.9 ∧
     factores_estacionales 5 = 0.9 ∧ factores_estacionales 6 = 1.2 ∧
     factores_estacionales 7 = 1.25 ∧ factores_estacionales 8 = 1.3 ∧
     factores_estacionales 9 = 0.9 ∧ factores_estacionales 10 = 0.95 ∧
     factores_estacionales 11 = 1.0 ∧ factores_estacionales 12 = 1.15) ∧
    (∀ m : ℤ, m < 1 ∨ 12 < m → factores_estacionales m = 1.0) ∧
    (∀ (pats : Option Patrones) (base : ℚ) (prov dia vac : Scalar) (m : ℤ)
       (f : FactoresAplicados),
       (aplicar_correccion_avanzada pats base prov dia vac
           (.int m)).factores_aplicados = .ok f →
       f.estacional = factores_estacionales m) := by
  refine ⟨by norm_num [factores_estacionales], ?_, ?_⟩
  · intro m hm
    simp only [factores_estacionales]
    split_ifs <;> first | (exfalso; omega) | rfl
  · intro pats base prov dia vac m f h
    obtain ⟨pat, provU, -, -, -, -, -, hest, -, -⟩ :=
      aplicar_factores_ok pats base prov dia vac (.int m) f h
    exact hest

/-- Witness for C6 at month 0 (out of range) and month 6 through the
engine. -/
theorem factor_estacional_spec_witness :
    factores_estacionales 0 = 1.0 ∧ (1.2 : ℚ) = factores_estacionales 6 :=
  ⟨factor_estacional_spec.2.1 0 (by norm_num),
   factor_estacional_spec.2.2 (some ⟨[], []⟩) 10 (.str "x") (.int 1)
     (.int 0) 6 ⟨1.0, 1.0, 1.0, 1.2⟩ (by
       rw [aplicar_correccion_avanzada,
         innerCorrection_ok ⟨[], []⟩ 10 (.str "x") (.int 1) (.int 0) (.int 6)
           (pyUpper "x") 1.0 1.0 rfl rfl rfl]
       norm_num [vacacionesFactor, Scalar.truthy, seasonalOf,
         factores_estacionales])⟩

/-- C7: every factor whose rule does not match defaults to 1.0 and is not
an error: unknown uppercased province → 1.0, unknown weekday string → 1.0,
falsy holiday flag → 1.0 (truthy flag multiplies in the constant 1.15). -/
theorem factores_default_spec :
    (∀ (pats : Option Patrones) (base : ℚ) (prov dia vac mes : Scalar)
       (pat : Patrones) (provU : String) (f : FactoresAplicados),
       (aplicar_correccion_avanzada pats base prov dia vac mes).factores_aplicados
           = .ok f →
       pats = some pat → Scalar.upper prov = .ok provU →
       (pat.patrones_provincia.lookup provU = none → f.provincia = 1.0) ∧
       (pat.patrones_dia_semana.lookup dia.pyStr = none → f.dia_semana = 1.0) ∧
       (vac.truthy = false → f.vacaciones = 1.0) ∧
       (vac.truthy = true → f.vacaciones = 1.15)) ∧
    (∀ (pat : Patrones) (base : ℚ) (s : String) (dia vac mes : Scalar),
       pat.patrones_provincia.lookup (pyUpper s) = none →
       pat.patrones_dia_semana.lookup dia.pyStr = none →
       ∃ f, (aplicar_correccion_avanzada (some pat) base (.str s) dia vac
           mes).factores_aplicados = .ok f ∧
         f.provincia = 1.0 ∧ f.dia_semana = 1.0) := by
  constructor
  · intro pats base prov dia vac mes pat provU f h hpats hup
    obtain ⟨pat', provU', hpats', hup', hpf, hdf, hvac, -, -, -⟩ :=
      aplicar_factores_ok pats base prov dia vac mes f h
    rw [hpats] at hpats'
    obtain rfl := Option.some.inj hpats'
    rw [hup] at hup'
    obtain rfl : provU = provU' := by
      cases hup'
      rfl
    refine ⟨?_, ?_, ?_, ?_⟩
    · intro hnone
      rw [provinciaFactor, hnone] at hpf
      exact (Except.ok.inj hpf).symm
    · intro hnone
      rw [diaFactor, hnone] at hdf
      exact (Except.ok.inj hdf).symm
    · intro hfalse
      rw [hvac, vacacionesFactor, hfalse]
      simp
    · intro htrue
      rw [hvac, vacacionesFactor, htrue]
      simp
  · intro pat base s dia vac mes hpnone hdnone
    have hf : provinciaFactor pat (pyUpper s) = .ok 1.0 := by
      rw [provinciaFactor, hpnone]
    have hd : diaFactor pat dia = .ok 1.0 := by
      rw [diaFactor, hdnone]
    refine ⟨⟨1.0, 1.0, vacacionesFactor vac, seasonalOf mes⟩, ?_, rfl, rfl⟩
    rw [aplicar_correccion_avanzada,
      innerCorrection_ok pat base (.str s) dia vac mes (pyUpper s) 1.0 1.0
        (upper_str s) hf hd]

/-- Witness for C7: an empty table and a falsy flag give all-1.0 factors;
a truthy flag gives 1.15. -/
theorem factores_default_spec_witness :
    ∃ f, (aplicar_correccion_avanzada (some ⟨[], []⟩) 10 (.str "x") (.int 9)
        (.int 0) (.int 2)).factores_aplicados = .ok f ∧
      f.provincia = 1.0 ∧ f.dia_semana = 1.0 :=
  factores_default_spec.2 ⟨[], []⟩ 10 "x" (.int 9) (.int 0) (.int 2) rfl rfl

/-- C5: for every InputRecord and schema, the feature aligner produces a
vector whose length equals the schema length, whose i-th column is the
record's value for the i-th schema field (0 when the field is absent from
the record), and record fields absent from the schema are dropped without
error. -/
theorem alignFeatures_spec :
    (∀ (features : List String) (data : InputRecord),
       (alignFeatures features data).length = features.length) ∧
    (∀ (features : List String) (data : InputRecord) (i : ℕ)
       (h1 : i < features.length)
       (h2 : i < (alignFeatures features data).length),
       (alignFeatures features data).get ⟨i, h2⟩ =
         (List.lookup (features.get ⟨i, h1⟩) data).getD (.int 0)) ∧
    (∀ (features : List String) (data : InputRecord) (i : ℕ)
       (h1 : i < features.length)
       (h2 : i < (alignFeatures features data).length),
       List.lookup (features.get ⟨i, h1⟩) data = none →
       (alignFeatures features data).get ⟨i, h2⟩ = .int 0) ∧
    (∀ (features : List String) (data : InputRecord) (k : String) (v : Scalar),
       k ∉ features →
       alignFeatures features ((k, v) :: data) = alignFeatures features data) := by
  refine ⟨?_, ?_, ?_, ?_⟩
  · intro features data
    simp [alignFeatures]
  · intro features data i h1 h2
    simp [alignFeatures, List.get_eq_getElem, List.getElem_map]
  · intro features data i h1 h2 h
    simp only [List.get_eq_getElem] at h
    simp [alignFeatures, List.get_eq_getElem, List.getElem_map, h]
  · intro features data k v hk
    apply List.map_congr_left
    intro f hf
    have hne : (f == k) = false := by
      apply beq_eq_false_iff_ne.mpr
      intro hfk
      exact hk (hfk ▸ hf)
    simp [List.lookup, hne]

/-- Witness for C5 on a concrete schema and a record that is neither a
subset nor a superset of it. -/
theorem alignFeatures_spec_witness :
    (alignFeatures ["a", "b"] [("b", .int 7), ("z", .int 9)]).length = 2 ∧
    (alignFeatures ["a", "b"] [("b", .int 7), ("z", .int 9)]).get ⟨0, by decide⟩
      = .int 0 ∧
    alignFeatures ["a", "b"] (("z", .int 9) :: [("b", .int 7)]) =
      alignFeatures ["a", "b"] [("b", .int 7)] :=
  ⟨alignFeatures_spec.1 ["a", "b"] [("b", .int 7), ("z", .int 9)],
   alignFeatures_spec.2.2.1 ["a", "b"] [("b", .int 7), ("z", .int 9)] 0
     (by decide) (by decide) (by decide),
   alignFeatures_spec.2.2.2 ["a", "b"] [("b", .int 7)] "z" (.int 9)
     (by decide)⟩

/-- C8 counterexample: a POST /predict request with an absent body arriving
while the model is not loaded is answered 500 ("Modelo no cargado
correctamente"), not 400 — the resource check precedes the body check, so
the claim's "never a 500" fails. -/
theorem predict_empty_body_cex :
    predict ⟨none, none, none⟩ none =
      .serverError "Modelo no cargado correctamente" := rfl

/-- C8 (amended): provided the model and feature schema are loaded, every
POST /predict request with an empty or absent body yields 400 with an error
field; when the model or features are not loaded the resource check takes
precedence and every request — including empty-body ones — yields 500. -/
theorem predict_empty_body_spec :
    (∀ (modelo : Predictor) (features_info : FeaturesInfo)
       (pats : Option Patrones),
       predict ⟨some modelo, some features_info, pats⟩ none =
         .clientError "No se enviaron datos" ∧
       predict ⟨some modelo, some features_info, pats⟩ (some []) =
         .clientError "No se enviaron datos") ∧
    (∀ (st : AppState) (body : Option InputRecord),
       st.modelo = none ∨ st.features_info = none →
       predict st body = .serverError "Modelo no cargado correctamente") := by
  constructor
  · intro modelo features_info pats
    exact ⟨rfl, rfl⟩
  · intro st body hres
    obtain ⟨mo, fi, pats⟩ := st
    rcases hres with h | h <;> simp only at h <;> subst h
    · rfl
    · cases mo <;> rfl

/-- Witness for C8 at concrete loaded and unloaded states. -/
theorem predict_empty_body_spec_witness :
    predict ⟨some (fun _ => Except.ok 1), some ⟨[]⟩, none⟩ none =
      .clientError "No se enviaron datos" ∧
    predict ⟨none, none, none⟩ (some [("a", .int 1)]) =
      .serverError "Modelo no cargado correctamente" :=
  ⟨(predict_empty_body_spec.1 (fun _ => Except.ok 1) ⟨[]⟩ none).1,
   predict_empty_body_spec.2 ⟨none, none, none⟩ (some [("a", .int 1)])
     (Or.inl rfl)⟩

/-- C10 counterexample: a request with an empty body arriving while nothing
is loaded is answered with the `{'error': ...}` body of the early empty-body
check, which carries no `success` field — not the claimed
`{error, success: false}` shape. -/
theorem predict_simple_unloaded_cex :
    predict_simple ⟨none, none, none⟩ (some []) =
      .errNoData "No data provided" ∧
    predict_simple ⟨none, none, none⟩ (some []) ≠ .err "No data provided" :=
  ⟨rfl, by simp [predict_simple, simpleCore]⟩

/-- C10 (amended): POST /predict/simple performs no resource-availability
check.  Every request with a non-empty body arriving while the model or
feature schema is not loaded returns 400 with `{error, success: false}`
(the internal failure is caught by the generic handler); an empty or absent
body instead returns 400 with `{error}` and no `success` field, regardless
of resource state; POST /predict answers 500 to every request in the same
unloaded situation. -/
theorem predict_simple_unloaded_spec :
    (∀ (st : AppState) (data : InputRecord),
       st.modelo = none ∨ st.features_info = none → data ≠ [] →
       ∃ msg, predict_simple st (some data) = .err msg) ∧
    (∀ st : AppState,
       predict_simple st none = .errNoData "No data provided" ∧
       predict_simple st (some []) = .errNoData "No data provided") ∧
    (∀ (st : AppState) (body : Option InputRecord),
       st.modelo = none ∨ st.features_info = none →
       predict st body = .serverError "Modelo no cargado correctamente") := by
  refine ⟨?_, ?_, ?_⟩
  · intro st data hres hd
    obtain ⟨mo, fi, pats⟩ := st
    cases data with
    | nil => exact absurd rfl hd
    | cons a l =>
        cases fi with
        | none => exact ⟨"NoneType object is not subscriptable", rfl⟩
        | some fi =>
            cases mo with
            | none => exact ⟨"NoneType object has no attribute predict", rfl⟩
            | some mo => rcases hres with h | h <;> exact Option.noConfusion h
  · intro st
    exact ⟨rfl, rfl⟩
  · intro st body hres
    obtain ⟨mo, fi, pats⟩ := st
    rcases hres with h | h <;> simp only at h <;> subst h
    · rfl
    · cases mo <;> rfl

/-- Witness for C10 at a concrete unloaded state and non-empty body. -/
theorem predict_simple_unloaded_spec_witness :
    (∃ msg, predict_simple ⟨none, none, none⟩ (some [("a", .int 1)]) =
      .err msg) ∧
    predict ⟨none, none, none⟩ (some [("a", .int 1)]) =
      .serverError "Modelo no cargado correctamente" :=
  ⟨predict_simple_unloaded_spec.1 ⟨none, none, none⟩ [("a", .int 1)]
     (Or.inl rfl) (by simp),
   predict_simple_unloaded_spec.2.2 ⟨none, none, none⟩
     (some [("a", .int 1)]) (Or.inl rfl)⟩

/-- C9: POST /predict/simple runs the same pipeline (align, model,
correction, categorize) but passes the constant falsy holiday flag 0 to the
correction engine regardless of any `Es_Vacaciones` field in the input, and
its success response is exactly the corrected rounded value, its category,
and the success constructor, with no factor breakdown; on the normal path
the holiday factor of that call is 1.0. -/
theorem predict_simple_spec :
    (∀ (st : AppState) (data : InputRecord) (modelo : Predictor)
       (features_info : FeaturesInfo) (base : ℚ),
       st.modelo = some modelo → st.features_info = some features_info →
       data ≠ [] →
       modelo (alignFeatures features_info.features data) = Except.ok base →
       predict_simple st (some data) =
         .ok (pyRound2 (aplicar_correccion_avanzada st.patrones base
               (dataGet data "provincia" (.str "PICHINCHA"))
               (dataGet data "dia_semana" (.int 1)) (.int 0)
               (dataGet data "Mes" (.int 1))).prediccion_corregida)
           ((categorizar_afluencia (pyRound2 (aplicar_correccion_avanzada
               st.patrones base
               (dataGet data "provincia" (.str "PICHINCHA"))
               (dataGet data "dia_semana" (.int 1)) (.int 0)
               (dataGet data "Mes" (.int 1))).prediccion_corregida)).categoria)) ∧
    (∀ (pats : Option Patrones) (base : ℚ) (prov dia mes : Scalar)
       (f : FactoresAplicados),
       (aplicar_correccion_avanzada pats base prov dia (.int 0)
           mes).factores_aplicados = .ok f →
       f.vacaciones = 1.0) := by
  constructor
  · intro st data modelo features_info base hmo hfi hd hm
    obtain ⟨mo, fi, pats⟩ := st
    simp only at hmo hfi
    subst hmo
    subst hfi
    cases data with
    | nil => exact absurd rfl hd
    | cons a l =>
        simp [predict_simple, simpleCore, hm, Bind.bind, Except.bind]
  · intro pats base prov dia mes f h
    obtain ⟨pat, provU, -, -, -, -, hvac, -, -, -⟩ :=
      aplicar_factores_ok pats base prov dia (.int 0) mes f h
    rw [hvac]
    simp [vacacionesFactor, Scalar.truthy]

/-- Witness for C9: a record carrying `Es_Vacaciones = 1` still yields the
holiday-free corrected value. -/
theorem predict_simple_spec_witness :
    predict_simple ⟨some (fun _ => Except.ok 20), some ⟨[]⟩, some ⟨[], []⟩⟩
        (some [("Es_Vacaciones", .int 1)]) =
      .ok (pyRound2 (aplicar_correccion_avanzada (some ⟨[], []⟩) 20
            (dataGet [("Es_Vacaciones", .int 1)] "provincia" (.str "PICHINCHA"))
            (dataGet [("Es_Vacaciones", .int 1)] "dia_semana" (.int 1)) (.int 0)
            (dataGet [("Es_Vacaciones", .int 1)] "Mes"
              (.int 1))).prediccion_corregida)
        ((categorizar_afluencia (pyRound2 (aplicar_correccion_avanzada
            (some ⟨[], []⟩) 20
            (dataGet [("Es_Vacaciones", .int 1)] "provincia" (.str "PICHINCHA"))
            (dataGet [("Es_Vacaciones", .int 1)] "dia_semana" (.int 1)) (.int 0)
            (dataGet [("Es_Vacaciones", .int 1)] "Mes"
              (.int 1))).prediccion_corregida)).categoria) :=
  predict_simple_spec.1 ⟨some (fun _ => Except.ok 20), some ⟨[]⟩, some ⟨[], []⟩⟩
    [("Es_Vacaciones", .int 1)] (fun _ => Except.ok 20) ⟨[]⟩ 20 rfl rfl
    (by simp) rfl

/-- C4 counterexample: with a non-string `provincia` (here the int 5) the
correction engine hits an internal error and recovers to the identity
correction, yet the request as a whole fails with an HTTP 400 error
(`provincia.upper()` is evaluated again while building the response), so
this internal correction failure is NOT surfaced in a success response
body. -/
theorem correccion_degrada_cex :
    aplicar_correccion_avanzada (some ⟨[], []⟩) 20 (.int 5) (.int 1) (.int 0)
        (.int 1) =
      { prediccion_corregida := 20,
        factores_aplicados := .error "int object has no attribute upper",
        factor_total := 1.0 } ∧
    predict ⟨some (fun _ => Except.ok 20), some ⟨[]⟩, some ⟨[], []⟩⟩
        (some [("provincia", .int 5)]) =
      .clientError "Error en predicción: int object has no attribute upper" :=
  ⟨rfl, rfl⟩

/-- C4 (amended): the correction engine never raises to its caller; on any
internal computation error it returns the base prediction unchanged with
factor_total 1.0 and the error message embedded in the factor breakdown.
Whenever the request otherwise succeeds (string `provincia`, model call ok),
the breakdown — including the error marker — is surfaced in the 200
response body; when the `provincia` value is not a string, the same root
cause makes response serialization fail and the request returns an HTTP
400 instead. -/
theorem correccion_degrada_spec :
    (∀ (pats : Option Patrones) (base : ℚ) (prov dia vac mes : Scalar)
       (e : String),
       innerCorrection pats base prov dia vac mes = .error e →
       aplicar_correccion_avanzada pats base prov dia vac mes =
         { prediccion_corregida := base, factores_aplicados := .error e,
           factor_total := 1.0 }) ∧
    (∀ (modelo : Predictor) (features_info : FeaturesInfo)
       (pats : Option Patrones) (data : InputRecord) (base : ℚ) (s : String),
       modelo (alignFeatures features_info.features data) = Except.ok base →
       data ≠ [] →
       dataGet data "provincia" (.str "PICHINCHA") = .str s →
       ∃ r, predict ⟨some modelo, some features_info, pats⟩ (some data) =
           .ok r ∧
         r.factores_aplicados =
           (aplicar_correccion_avanzada pats base (.str s)
             (dataGet data "dia_semana" (.int 1))
             (dataGet data "Es_Vacaciones" (.int 0))
             (dataGet data "Mes" (.int 1))).factores_aplicados) :=
  ⟨aplicar_error,
   fun modelo features_info pats data base s hm hd hs =>
     ⟨predictRespuesta pats data base s,
      predict_ok_build modelo features_info pats data base s hm hd hs, rfl⟩⟩

/-- Witness for C4: a malformed province table entry (a string factor)
degrades to the identity correction, and the error marker reaches the 200
response body. -/
theorem correccion_degrada_spec_witness :
    aplicar_correccion_avanzada (some ⟨[("X", ⟨some (.str "bad")⟩)], []⟩) 10
        (.str "x") (.int 1) (.int 0) (.int 1) =
      { prediccion_corregida := 10,
        factores_aplicados :=
          .error "cannot multiply sequence by non-int of type float",
        factor_total := 1.0 } ∧
    ∃ r, predict ⟨some (fun _ => Except.ok 10), some ⟨[]⟩,
          some ⟨[("X", ⟨some (.str "bad")⟩)], []⟩⟩
          (some [("provincia", .str "x")]) = .ok r ∧
      r.factores_aplicados =
        (aplicar_correccion_avanzada (some ⟨[("X", ⟨some (.str "bad")⟩)], []⟩)
          10 (.str "x")
          (dataGet [("provincia", .str "x")] "dia_semana" (.int 1))
          (dataGet [("provincia", .str "x")] "Es_Vacaciones" (.int 0))
          (dataGet [("provincia", .str "x")] "Mes"
            (.int 1))).factores_aplicados :=
  ⟨correccion_degrada_spec.1 (some ⟨[("X", ⟨some (.str "bad")⟩)], []⟩) 10
     (.str "x") (.int 1) (.int 0) (.int 1)
     "cannot multiply sequence by non-int of type float" rfl,
   correccion_degrada_spec.2 (fun _ => Except.ok 10) ⟨[]⟩
     (some ⟨[("X", ⟨some (.str "bad")⟩)], []⟩) [("provincia", .str "x")] 10 "x"
     rfl (by simp) rfl⟩

/-- The unrounded corrected prediction underlying a successful `/predict`
response, as a function of the base prediction and request parameters. -/
def corrValue (pats : Option Patrones) (data : InputRecord) (base : ℚ)
    (s : String) : ℚ :=
  (aplicar_correccion_avanzada pats base (.str s)
    (dataGet data "dia_semana" (.int 1))
    (dataGet data "Es_Vacaciones" (.int 0))
    (dataGet data "Mes" (.int 1))).prediccion_corregida

/-- C1 (amended): in every 200 response of POST /predict, `categoria` is
the categorizer applied to the UNROUNDED corrected prediction while
`afluencia` is that value rounded to 2 decimals; hence the round-trip
categorize(afluencia) == categoria holds exactly when rounding to 2
decimals does not move the value across a band boundary. -/
theorem predict_categoria_roundtrip :
    ∀ (modelo : Predictor) (features_info : FeaturesInfo)
      (pats : Option Patrones) (data : InputRecord) (r : PredictOk),
      predict ⟨some modelo, some features_info, pats⟩ (some data) = .ok r →
      ∃ base s,
        modelo (alignFeatures features_info.features data) = Except.ok base ∧
        dataGet data "provincia" (.str "PICHINCHA") = .str s ∧
        r.afluencia = pyRound2 (corrValue pats data base s) ∧
        r.categoria =
          (categorizar_afluencia (corrValue pats data base s)).categoria ∧
        ((categorizar_afluencia r.afluencia).categoria = r.categoria ↔
          (categorizar_afluencia
              (pyRound2 (corrValue pats data base s))).categoria =
            (categorizar_afluencia (corrValue pats data base s)).categoria) := by
  intro modelo features_info pats data r h
  obtain ⟨hd, base, s, hm, hs⟩ :=
    predict_ok_inv modelo features_info pats data r h
  have hb := predict_ok_build modelo features_info pats data base s hm hd hs
  rw [h] at hb
  obtain rfl := PredictResponse.ok.inj hb
  exact ⟨base, s, hm, hs, rfl, rfl, Iff.rfl⟩

/-- Witness for C1 at a concrete 200 response. -/
theorem predict_categoria_roundtrip_witness :
    ∃ base s,
      (Except.ok (20 : ℚ) : Except String ℚ) = Except.ok base ∧
      dataGet [("provincia", .str "X")] "provincia" (.str "PICHINCHA") =
        .str s ∧
      (predictRespuesta (some ⟨[], []⟩) [("provincia", .str "X")] 20
          "X").afluencia =
        pyRound2 (corrValue (some ⟨[], []⟩) [("provincia", .str "X")] base s) ∧
      (predictRespuesta (some ⟨[], []⟩) [("provincia", .str "X")] 20
          "X").categoria =
        (categorizar_afluencia
          (corrValue (some ⟨[], []⟩) [("provincia", .str "X")] base
            s)).categoria ∧
      ((categorizar_afluencia (predictRespuesta (some ⟨[], []⟩)
            [("provincia", .str "X")] 20 "X").afluencia).categoria =
          (predictRespuesta (some ⟨[], []⟩) [("provincia", .str "X")] 20
            "X").categoria ↔
        (categorizar_afluencia (pyRound2 (corrValue (some ⟨[], []⟩)
            [("provincia", .str "X")] base s))).categoria =
          (categorizar_afluencia (corrValue (some ⟨[], []⟩)
            [("provincia", .str "X")] base s)).categoria) :=
  predict_categoria_roundtrip (fun _ => Except.ok 20) ⟨[]⟩ (some ⟨[], []⟩)
    [("provincia", .str "X")]
    (predictRespuesta (some ⟨[], []⟩) [("provincia", .str "X")] 20 "X")
    (predict_ok_build (fun _ => Except.ok 20) ⟨[]⟩ (some ⟨[], []⟩)
      [("provincia", .str "X")] 20 "X" rfl (by simp) rfl)

/-- C1 counterexample: with base prediction 34.996 and all correction
factors 1.0 (unknown province, unknown weekday, no holiday, month 13), the
200 response carries afluencia = 35 (rounded to 2 decimals) but categoria
= "ALTA" (computed from the unrounded 34.996), while the categorizer
applied to the response's own afluencia yields "MUY ALTA". -/
theorem predict_roundtrip_cex :
    predict ⟨some (fun _ => Except.ok (34996/1000 : ℚ)), some ⟨[]⟩,
        some ⟨[], []⟩⟩
        (some [("provincia", .str "X"), ("Mes", .int 13)]) =
      .ok (predictRespuesta (some ⟨[], []⟩)
        [("provincia", .str "X"), ("Mes", .int 13)] (34996/1000) "X") ∧
    (predictRespuesta (some ⟨[], []⟩)
        [("provincia", .str "X"), ("Mes", .int 13)] (34996/1000) "X").afluencia
      = 35 ∧
    (predictRespuesta (some ⟨[], []⟩)
        [("provincia", .str "X"), ("Mes", .int 13)] (34996/1000) "X").categoria
      = "ALTA" ∧
    (categorizar_afluencia 35).categoria = "MUY ALTA" := by
  have hval : (aplicar_correccion_avanzada (some ⟨[], []⟩) (34996/1000 : ℚ)
      (.str "X") (.int 1) (.int 0) (.int 13)).prediccion_corregida
      = 34996/1000 := by
    rw [aplicar_correccion_avanzada,
      innerCorrection_ok ⟨[], []⟩ (34996/1000) (.str "X") (.int 1) (.int 0)
        (.int 13) (pyUpper "X") 1.0 1.0 rfl rfl rfl]
    norm_num [vacacionesFactor, Scalar.truthy, seasonalOf,
      factores_estacionales]
  have hd1 : dataGet [("provincia", Scalar.str "X"), ("Mes", Scalar.int 13)]
      "dia_semana" (.int 1) = .int 1 := rfl
  have hd2 : dataGet [("provincia", Scalar.str "X"), ("Mes", Scalar.int 13)]
      "Es_Vacaciones" (.int 0) = .int 0 := rfl
  have hd3 : dataGet [("provincia", Scalar.str "X"), ("Mes", Scalar.int 13)]
      "Mes" (.int 1) = .int 13 := rfl
  refine ⟨predict_ok_build (fun _ => Except.ok (34996/1000 : ℚ)) ⟨[]⟩
    (some ⟨[], []⟩) [("provincia", .str "X"), ("Mes", .int 13)] (34996/1000)
    "X" rfl (by simp) rfl, ?_, ?_, ?_⟩
  · simp only [predictRespuesta, hd1, hd2, hd3, hval]
    norm_num [pyRound2, roundHalfEven]
  · simp only [predictRespuesta, hd1, hd2, hd3, hval]
    norm_num [categorizar_afluencia]
  · norm_num [categorizar_afluencia]

end Afluencia
